import Mathlib

/-!
# Verification of the `fluent-zero` message resolver

Shallow embedding of `fluent-zero/src/lib.rs`: the cache entry type, the
locale register, the engine boundary (`lookup_in_bundle` / `format_in_bundle`)
and the two resolver entry points (`lookup_static` / `lookup_dynamic`).

Modelling conventions:
* Rust's global `CURRENT_LANG` cell becomes explicit state passing: every
  function that read the global through `get_lang()` takes the current
  `LocaleState` snapshot as an argument.
* `Cow<'a, str>` becomes the two-constructor `Cow` type below, so that the
  borrowed/owned distinction of the source is preserved.
* The external `fluent_bundle::concurrent::FluentBundle` collaborator is
  embedded by its interface as used in `lib.rs`: `get_message` returns an
  optional message, a message optionally has a value pattern, and
  `format_pattern` is total — it returns a string (a `Cow`) and pushes any
  internal formatting errors into an error list, exactly the Rust signature
  `format_pattern(&pattern, Option<&FluentArgs>, &mut Vec<FluentError>) -> Cow<str>`.
* The trait objects `CacheStore` / `BundleCollection` become function types,
  matching `get_entry : (&str, &str) -> Option<CacheEntry>` and
  `get_bundle : &str -> Option<&FluentBundle>`.
-/

/-- `CacheEntry` from `lib.rs`: a cache hit is either a ready static string
(`Static(&'static str)`) or a marker that the bundle machinery is needed
(`Dynamic`). -/
inductive CacheEntry where
  | Static (s : String)
  | Dynamic
deriving DecidableEq, Repr

/-- Model of `std::borrow::Cow<'a, str>`: either a borrowed reference to an
already-existing string (static binary data or the caller's key) or a freshly
allocated owned string. -/
inductive Cow where
  | borrowed (s : String)
  | owned (s : String)
deriving DecidableEq, Repr

/-- The underlying string of a `Cow`, discarding ownership information. -/
def Cow.str : Cow → String
  | .borrowed s => s
  | .owned s => s

/-- `true` exactly on the `owned` variant. -/
def Cow.isOwned : Cow → Bool
  | .borrowed _ => false
  | .owned _ => true

/-- Model of `unic_langid::LanguageIdentifier`: an externally parsed and
validated language tag, carried here by its canonical `Display` string (the
only facet `lib.rs` uses, via `lang.to_string()`). -/
structure LanguageIdentifier where
  canonical : String
deriving DecidableEq, Repr

/-- `lang.to_string()` of the external identifier: its canonical form. -/
def LanguageIdentifier.to_string (l : LanguageIdentifier) : String :=
  l.canonical

/-- `LocaleState` from `lib.rs`: the parsed identifier plus the string key
used for cache lookups. -/
structure LocaleState where
  id : LanguageIdentifier
  key : String
deriving DecidableEq, Repr

/-- `FluentArgs`, embedded as an association list of argument names to
(string-rendered) values; the resolver never inspects it, it only forwards it
to the engine. -/
abbrev FluentArgs := List (String × String)

/-- A formatting error pushed by the engine into the caller-supplied error
vector (`Vec<FluentError>` in the source). -/
abbrev FluentError := String

/-- The slice of `fluent_bundle`'s message type that `lib.rs` touches: a
message with an optional value pattern (`msg.value()`). Patterns are carried
opaquely as strings. -/
structure FluentMessage where
  value : Option String
deriving DecidableEq, Repr

/-- The slice of `ConcurrentFluentBundle<FluentResource>` that `lib.rs`
touches. `format_pattern` is total: it always returns a rendered string, and
reports internal formatting errors only through the returned error list
(second component), mirroring the `&mut Vec<FluentError>` out-parameter. -/
structure FluentBundle where
  get_message : String → Option FluentMessage
  format_pattern : String → Option FluentArgs → Cow × List FluentError

/-- The `CacheStore` trait: `get_entry(lang, key) -> Option<CacheEntry>`. -/
abbrev CacheStore := String → String → Option CacheEntry

/-- The `BundleCollection` trait: `get_bundle(lang) -> Option<&Bundle>`. -/
abbrev BundleCollection := String → Option FluentBundle

/-- `static FALLBACK_LANG_KEY: &str = "en-US";` -/
def FALLBACK_LANG_KEY : String := "en-US"

/-- The parse error of the external language-tag parser
(`unic_langid::LanguageIdentifierError`), surfaced to the caller who parses a
tag string before calling `set_lang`. -/
inductive ParseError where
  | parseError
deriving DecidableEq, Repr

/-- `set_lang` from `lib.rs`, with the global `CURRENT_LANG` cell made
explicit: it builds a brand-new `LocaleState` from the (already parsed)
identifier and replaces the whole snapshot in one store. The previous state
is discarded, never mutated. -/
def set_lang (lang : LanguageIdentifier) (_g : LocaleState) : LocaleState :=
  { id := lang, key := lang.to_string }

/-- `get_lang` from `lib.rs`: loads the current snapshot. With the global
made explicit it returns the state unchanged. -/
def get_lang (g : LocaleState) : LocaleState :=
  g

/-- The initial value of the global `CURRENT_LANG` cell: `"en-US"` parsed by
the external parser, whose canonical `to_string` form is `"en-US"` again
(the tag is already canonical). -/
def initial_locale_state : LocaleState :=
  { id := { canonical := "en-US" }, key := "en-US" }

/-- Modelled from the spec: the locale-switch operation as seen from a caller
holding a raw tag string. The tag is parsed by the external language-tag
parser (missing from `src/`, supplied here as the argument `parse`); on
success `set_lang` is invoked, on failure a `ParseError` is reported and
`set_lang` is never reached, so the previous state is returned untouched. -/
def set_lang_from_str (parse : String → Option LanguageIdentifier)
    (tag : String) (g : LocaleState) : LocaleState × Option ParseError :=
  match parse tag with
  | some id => (set_lang id g, none)
  | none => (g, some ParseError.parseError)

/-- `lookup_in_bundle` from `lib.rs`:
`get_message(key)?`, then `msg.value()?`, then format the pattern with no
arguments; the local `errors` vector is discarded and the rendered string is
returned. -/
def lookup_in_bundle (bundle : FluentBundle) (key : String) : Option Cow :=
  match bundle.get_message key with
  | none => none
  | some msg =>
      match msg.value with
      | none => none
      | some pattern => some (bundle.format_pattern pattern none).1

/-- `format_in_bundle` from `lib.rs`: identical to `lookup_in_bundle` except
that the caller's arguments are passed to `format_pattern`. -/
def format_in_bundle (bundle : FluentBundle) (key : String)
    (args : FluentArgs) : Option Cow :=
  match bundle.get_message key with
  | none => none
  | some msg =>
      match msg.value with
      | none => none
      | some pattern => some (bundle.format_pattern pattern (some args)).1

/-- The STEP body that `lookup_static` runs twice (lines 173-184 against the
current key, lines 187-198 against the fallback key): a `Static` hit returns
the borrowed payload; a `Dynamic` hit consults the bundle for this language
and returns its value when it yields one; everything else falls through
(`none`). -/
def tier_static (bundles : BundleCollection) (cache : CacheStore)
    (lang key : String) : Option Cow :=
  match cache lang key with
  | some (CacheEntry.Static s) => some (Cow.borrowed s)
  | some CacheEntry.Dynamic =>
      match bundles lang with
      | some b => lookup_in_bundle b key
      | none => none
  | none => none

/-- The STEP body that `lookup_dynamic` runs twice (lines 229-241 and
244-255): as `tier_static`, but a `Dynamic` hit forwards the caller's
arguments via `format_in_bundle`. -/
def tier_dynamic (bundles : BundleCollection) (cache : CacheStore)
    (lang key : String) (args : FluentArgs) : Option Cow :=
  match cache lang key with
  | some (CacheEntry.Static s) => some (Cow.borrowed s)
  | some CacheEntry.Dynamic =>
      match bundles lang with
      | some b => format_in_bundle b key args
      | none => none
  | none => none

/-- `lookup_static` from `lib.rs` (lines 164-201), with the current locale
snapshot `st` passed explicitly in place of `get_lang()`. Step 1 runs the
tier body against `st.key`; on fall-through, step 2 runs it against
`FALLBACK_LANG_KEY` only when `st.key` is not already the fallback
(`!is_fallback && ...`); the final line echoes the key, borrowed. -/
def lookup_static (bundles : BundleCollection) (cache : CacheStore)
    (st : LocaleState) (key : String) : Cow :=
  match tier_static bundles cache st.key key with
  | some val => val
  | none =>
      if st.key = FALLBACK_LANG_KEY then Cow.borrowed key
      else
        match tier_static bundles cache FALLBACK_LANG_KEY key with
        | some val => val
        | none => Cow.borrowed key

/-- `lookup_dynamic` from `lib.rs` (lines 219-258): same shape as
`lookup_static`, with the arguments forwarded on every `Dynamic` hit. -/
def lookup_dynamic (bundles : BundleCollection) (cache : CacheStore)
    (st : LocaleState) (key : String) (args : FluentArgs) : Cow :=
  match tier_dynamic bundles cache st.key key args with
  | some val => val
  | none =>
      if st.key = FALLBACK_LANG_KEY then Cow.borrowed key
      else
        match tier_dynamic bundles cache FALLBACK_LANG_KEY key args with
        | some val => val
        | none => Cow.borrowed key

/-- The three-tier policy abstracted over the engine call made on a `Dynamic`
hit. `lookup_static` instantiates `engine` with `lookup_in_bundle`;
`lookup_dynamic` instantiates it with `format_in_bundle · · args`. -/
def lookup_generic (engine : FluentBundle → String → Option Cow)
    (bundles : BundleCollection) (cache : CacheStore)
    (st : LocaleState) (key : String) : Cow :=
  let tier : String → Option Cow := fun lang =>
    match cache lang key with
    | some (CacheEntry.Static s) => some (Cow.borrowed s)
    | some CacheEntry.Dynamic =>
        match bundles lang with
        | some b => engine b key
        | none => none
    | none => none
  match tier st.key with
  | some val => val
  | none =>
      if st.key = FALLBACK_LANG_KEY then Cow.borrowed key
      else
        match tier FALLBACK_LANG_KEY with
        | some val => val
        | none => Cow.borrowed key

/-- `lookup_static` instrumented with the list of `cache.get_entry` queries
it performs, in order. Mirrors `lookup_static` line by line: the query
against `st.key` always happens; the query against `FALLBACK_LANG_KEY`
happens only when step 1 fell through and `!is_fallback` (the `&&` in the
source short-circuits before `get_entry`). -/
def lookup_static_traced (bundles : BundleCollection) (cache : CacheStore)
    (st : LocaleState) (key : String) : Cow × List (String × String) :=
  match tier_static bundles cache st.key key with
  | some val => (val, [(st.key, key)])
  | none =>
      if st.key = FALLBACK_LANG_KEY then (Cow.borrowed key, [(st.key, key)])
      else
        match tier_static bundles cache FALLBACK_LANG_KEY key with
        | some val => (val, [(st.key, key), (FALLBACK_LANG_KEY, key)])
        | none => (Cow.borrowed key, [(st.key, key), (FALLBACK_LANG_KEY, key)])

/-- `lookup_dynamic` instrumented with its `cache.get_entry` queries, exactly
as `lookup_static_traced`. -/
def lookup_dynamic_traced (bundles : BundleCollection) (cache : CacheStore)
    (st : LocaleState) (key : String) (args : FluentArgs) :
    Cow × List (String × String) :=
  match tier_dynamic bundles cache st.key key args with
  | some val => (val, [(st.key, key)])
  | none =>
      if st.key = FALLBACK_LANG_KEY then (Cow.borrowed key, [(st.key, key)])
      else
        match tier_dynamic bundles cache FALLBACK_LANG_KEY key args with
        | some val => (val, [(st.key, key), (FALLBACK_LANG_KEY, key)])
        | none => (Cow.borrowed key, [(st.key, key), (FALLBACK_LANG_KEY, key)])

/-- An empty bundle collection: no locale has an engine. -/
def no_bundles : BundleCollection := fun _ => none

/-- An empty cache: every lookup misses. -/
def empty_cache : CacheStore := fun _ _ => none

/-- A concrete test cache: `en-US` holds a static `greeting` and a dynamic
`welcome`; `fr-FR` holds a static `salut`. -/
def demo_cache : CacheStore := fun lang key =>
  if lang = "en-US" then
    if key = "greeting" then some (CacheEntry.Static "Hello")
    else if key = "welcome" then some CacheEntry.Dynamic
    else none
  else if lang = "fr-FR" then
    if key = "salut" then some (CacheEntry.Static "Salut")
    else none
  else none

/-- The `welcome` message of the test bundle: it has a value pattern. -/
def demo_message : FluentMessage := { value := some "welcome-pattern" }

/-- A test double of the external engine holding the message `welcome`, whose
pattern interpolates the variable `name`. When `name` is absent the engine
renders fallback text and reports the problem through the error list — it
never fails and always returns a string, like `format_pattern` in
`fluent_bundle`. -/
def demo_bundle : FluentBundle :=
  { get_message := fun k => if k = "welcome" then some demo_message else none,
    format_pattern := fun p args =>
      if p = "welcome-pattern" then
        match args with
        | some a =>
            match a.lookup "name" with
            | some n => (Cow.owned ("Welcome, " ++ n ++ "!"), [])
            | none => (Cow.owned "Welcome, name!", ["Unknown variable: name"])
        | none => (Cow.owned "Welcome, name!", ["Unknown variable: name"])
      else (Cow.owned p, []) }

/-- A bundle collection holding the test bundle for `en-US` only. -/
def demo_bundles : BundleCollection := fun lang =>
  if lang = "en-US" then some demo_bundle else none

/-- Current-locale snapshot for `fr-FR`. -/
def fr_state : LocaleState :=
  { id := { canonical := "fr-FR" }, key := "fr-FR" }

/-- Current-locale snapshot for `en-US` (the fallback locale). -/
def en_state : LocaleState :=
  { id := { canonical := "en-US" }, key := "en-US" }

/-- A test double of the external language-tag parser: accepts exactly
`"fr-FR"` and `"en-US"`. -/
def demo_parse : String → Option LanguageIdentifier := fun tag =>
  if tag = "fr-FR" then some { canonical := "fr-FR" }
  else if tag = "en-US" then some { canonical := "en-US" }
  else none

-- =========================================================================
-- Shared helper lemmas
-- =========================================================================

theorem lookup_static_t1 (bundles : BundleCollection) (cache : CacheStore)
    (st : LocaleState) (key : String) (v : Cow)
    (h : tier_static bundles cache st.key key = some v) :
    lookup_static bundles cache st key = v := by
  simp [lookup_static, h]

theorem lookup_static_t2 (bundles : BundleCollection) (cache : CacheStore)
    (st : LocaleState) (key : String) (v : Cow)
    (h1 : tier_static bundles cache st.key key = none)
    (hf : ¬ st.key = FALLBACK_LANG_KEY)
    (h2 : tier_static bundles cache FALLBACK_LANG_KEY key = some v) :
    lookup_static bundles cache st key = v := by
  simp [lookup_static, h1, h2, hf]

theorem lookup_static_echo (bundles : BundleCollection) (cache : CacheStore)
    (st : LocaleState) (key : String)
    (h1 : tier_static bundles cache st.key key = none)
    (h2 : st.key = FALLBACK_LANG_KEY ∨
      tier_static bundles cache FALLBACK_LANG_KEY key = none) :
    lookup_static bundles cache st key = Cow.borrowed key := by
  unfold lookup_static
  rw [h1]
  by_cases hf : st.key = FALLBACK_LANG_KEY
  · simp [hf]
  · rcases h2 with h | h2
    · exact absurd h hf
    · simp [hf, h2]

theorem lookup_dynamic_t1 (bundles : BundleCollection) (cache : CacheStore)
    (st : LocaleState) (key : String) (args : FluentArgs) (v : Cow)
    (h : tier_dynamic bundles cache st.key key args = some v) :
    lookup_dynamic bundles cache st key args = v := by
  simp [lookup_dynamic, h]

theorem lookup_dynamic_t2 (bundles : BundleCollection) (cache : CacheStore)
    (st : LocaleState) (key : String) (args : FluentArgs) (v : Cow)
    (h1 : tier_dynamic bundles cache st.key key args = none)
    (hf : ¬ st.key = FALLBACK_LANG_KEY)
    (h2 : tier_dynamic bundles cache FALLBACK_LANG_KEY key args = some v) :
    lookup_dynamic bundles cache st key args = v := by
  simp [lookup_dynamic, h1, h2, hf]

theorem lookup_dynamic_echo (bundles : BundleCollection) (cache : CacheStore)
    (st : LocaleState) (key : String) (args : FluentArgs)
    (h1 : tier_dynamic bundles cache st.key key args = none)
    (h2 : st.key = FALLBACK_LANG_KEY ∨
      tier_dynamic bundles cache FALLBACK_LANG_KEY key args = none) :
    lookup_dynamic bundles cache st key args = Cow.borrowed key := by
  unfold lookup_dynamic
  rw [h1]
  by_cases hf : st.key = FALLBACK_LANG_KEY
  · simp [hf]
  · rcases h2 with h | h2
    · exact absurd h hf
    · simp [hf, h2]

theorem lookup_static_traced_fst (bundles : BundleCollection)
    (cache : CacheStore) (st : LocaleState) (key : String) :
    (lookup_static_traced bundles cache st key).1 =
      lookup_static bundles cache st key := by
  unfold lookup_static_traced lookup_static
  cases tier_static bundles cache st.key key with
  | some v => rfl
  | none =>
    by_cases hf : st.key = FALLBACK_LANG_KEY
    · simp [hf]
    · simp only [if_neg hf]
      cases tier_static bundles cache FALLBACK_LANG_KEY key <;> rfl

theorem lookup_dynamic_traced_fst (bundles : BundleCollection)
    (cache : CacheStore) (st : LocaleState) (key : String) (args : FluentArgs) :
    (lookup_dynamic_traced bundles cache st key args).1 =
      lookup_dynamic bundles cache st key args := by
  unfold lookup_dynamic_traced lookup_dynamic
  cases tier_dynamic bundles cache st.key key args with
  | some v => rfl
  | none =>
    by_cases hf : st.key = FALLBACK_LANG_KEY
    · simp [hf]
    · simp only [if_neg hf]
      cases tier_dynamic bundles cache FALLBACK_LANG_KEY key args <;> rfl

theorem lookup_static_traced_snd_fallback (bundles : BundleCollection)
    (cache : CacheStore) (st : LocaleState) (key : String)
    (h : st.key = FALLBACK_LANG_KEY) :
    (lookup_static_traced bundles cache st key).2 = [(st.key, key)] := by
  unfold lookup_static_traced
  cases tier_static bundles cache st.key key with
  | some v => rfl
  | none => simp [h]

theorem lookup_dynamic_traced_snd_fallback (bundles : BundleCollection)
    (cache : CacheStore) (st : LocaleState) (key : String) (args : FluentArgs)
    (h : st.key = FALLBACK_LANG_KEY) :
    (lookup_dynamic_traced bundles cache st key args).2 = [(st.key, key)] := by
  unfold lookup_dynamic_traced
  cases tier_dynamic bundles cache st.key key args with
  | some v => rfl
  | none => simp [h]

theorem lookup_static_split (bundles : BundleCollection) (cache : CacheStore)
    (st : LocaleState) (key : String) :
    (∃ v, tier_static bundles cache st.key key = some v ∧
        lookup_static bundles cache st key = v) ∨
    (tier_static bundles cache st.key key = none ∧
      ¬ st.key = FALLBACK_LANG_KEY ∧
      ∃ v, tier_static bundles cache FALLBACK_LANG_KEY key = some v ∧
        lookup_static bundles cache st key = v) ∨
    (tier_static bundles cache st.key key = none ∧
      (st.key = FALLBACK_LANG_KEY ∨
        tier_static bundles cache FALLBACK_LANG_KEY key = none) ∧
      lookup_static bundles cache st key = Cow.borrowed key) := by
  cases h1 : tier_static bundles cache st.key key with
  | some v =>
    exact Or.inl ⟨v, rfl, lookup_static_t1 bundles cache st key v h1⟩
  | none =>
    by_cases hf : st.key = FALLBACK_LANG_KEY
    · exact Or.inr (Or.inr ⟨rfl, Or.inl hf,
        lookup_static_echo bundles cache st key h1 (Or.inl hf)⟩)
    · cases h2 : tier_static bundles cache FALLBACK_LANG_KEY key with
      | some v =>
        exact Or.inr (Or.inl ⟨rfl, hf, v, rfl,
          lookup_static_t2 bundles cache st key v h1 hf h2⟩)
      | none =>
        exact Or.inr (Or.inr ⟨rfl, Or.inr rfl,
          lookup_static_echo bundles cache st key h1 (Or.inr h2)⟩)

theorem lookup_dynamic_split (bundles : BundleCollection) (cache : CacheStore)
    (st : LocaleState) (key : String) (args : FluentArgs) :
    (∃ v, tier_dynamic bundles cache st.key key args = some v ∧
        lookup_dynamic bundles cache st key args = v) ∨
    (tier_dynamic bundles cache st.key key args = none ∧
      ¬ st.key = FALLBACK_LANG_KEY ∧
      ∃ v, tier_dynamic bundles cache FALLBACK_LANG_KEY key args = some v ∧
        lookup_dynamic bundles cache st key args = v) ∨
    (tier_dynamic bundles cache st.key key args = none ∧
      (st.key = FALLBACK_LANG_KEY ∨
        tier_dynamic bundles cache FALLBACK_LANG_KEY key args = none) ∧
      lookup_dynamic bundles cache st key args = Cow.borrowed key) := by
  cases h1 : tier_dynamic bundles cache st.key key args with
  | some v =>
    exact Or.inl ⟨v, rfl, lookup_dynamic_t1 bundles cache st key args v h1⟩
  | none =>
    by_cases hf : st.key = FALLBACK_LANG_KEY
    · exact Or.inr (Or.inr ⟨rfl, Or.inl hf,
        lookup_dynamic_echo bundles cache st key args h1 (Or.inl hf)⟩)
    · cases h2 : tier_dynamic bundles cache FALLBACK_LANG_KEY key args with
      | some v =>
        exact Or.inr (Or.inl ⟨rfl, hf, v, rfl,
          lookup_dynamic_t2 bundles cache st key args v h1 hf h2⟩)
      | none =>
        exact Or.inr (Or.inr ⟨rfl, Or.inr rfl,
          lookup_dynamic_echo bundles cache st key args h1 (Or.inr h2)⟩)

theorem tier_static_owned (bundles : BundleCollection) (cache : CacheStore)
    (lang key : String) (v : Cow)
    (h : tier_static bundles cache lang key = some v)
    (ho : v.isOwned = true) :
    cache lang key = some CacheEntry.Dynamic ∧
      ∃ b, bundles lang = some b ∧ lookup_in_bundle b key = some v := by
  unfold tier_static at h
  cases hc : cache lang key with
  | none => rw [hc] at h; exact absurd h (by simp)
  | some e =>
    cases e with
    | Static s =>
      rw [hc] at h
      simp only [Option.some.injEq] at h
      rw [← h] at ho
      exact absurd ho (by simp [Cow.isOwned])
    | Dynamic =>
      rw [hc] at h
      cases hb : bundles lang with
      | none => rw [hb] at h; exact absurd h (by simp)
      | some b =>
        rw [hb] at h
        exact ⟨rfl, b, rfl, h⟩

theorem tier_dynamic_owned (bundles : BundleCollection) (cache : CacheStore)
    (lang key : String) (args : FluentArgs) (v : Cow)
    (h : tier_dynamic bundles cache lang key args = some v)
    (ho : v.isOwned = true) :
    cache lang key = some CacheEntry.Dynamic ∧
      ∃ b, bundles lang = some b ∧ format_in_bundle b key args = some v := by
  unfold tier_dynamic at h
  cases hc : cache lang key with
  | none => rw [hc] at h; exact absurd h (by simp)
  | some e =>
    cases e with
    | Static s =>
      rw [hc] at h
      simp only [Option.some.injEq] at h
      rw [← h] at ho
      exact absurd ho (by simp [Cow.isOwned])
    | Dynamic =>
      rw [hc] at h
      cases hb : bundles lang with
      | none => rw [hb] at h; exact absurd h (by simp)
      | some b =>
        rw [hb] at h
        exact ⟨rfl, b, rfl, h⟩

theorem tier_agree (bundles : BundleCollection) (cache : CacheStore)
    (lang key : String) (args : FluentArgs)
    (h : ∀ b, cache lang key = some CacheEntry.Dynamic → bundles lang = some b →
      lookup_in_bundle b key = none ∧ format_in_bundle b key args = none) :
    tier_dynamic bundles cache lang key args =
      tier_static bundles cache lang key := by
  unfold tier_dynamic tier_static
  cases hc : cache lang key with
  | none => rfl
  | some e =>
    cases e with
    | Static s => rfl
    | Dynamic =>
      cases hb : bundles lang with
      | none => rfl
      | some b =>
        show format_in_bundle b key args = lookup_in_bundle b key
        rw [(h b hc hb).1, (h b hc hb).2]

-- =========================================================================
-- Claim theorems
-- =========================================================================

/-- C1: if the cache entry for the current locale key and the message key is
`Static s`, then `lookup_static` returns `s` and `lookup_dynamic` returns `s`
for every argument map, and the result is the same for every bundle
collection — the formatting engine is never consulted on a static hit. -/
theorem static_hit_short_circuits (bundles : BundleCollection)
    (cache : CacheStore) (st : LocaleState) (key : String) (args : FluentArgs)
    (s : String) (h : cache st.key key = some (CacheEntry.Static s)) :
    lookup_static bundles cache st key = Cow.borrowed s ∧
    lookup_dynamic bundles cache st key args = Cow.borrowed s ∧
    (∀ other : BundleCollection,
      lookup_static other cache st key = lookup_static bundles cache st key ∧
      lookup_dynamic other cache st key args =
        lookup_dynamic bundles cache st key args) := by
  have hstat : ∀ bs : BundleCollection,
      lookup_static bs cache st key = Cow.borrowed s := fun bs =>
    lookup_static_t1 bs cache st key (Cow.borrowed s) (by simp [tier_static, h])
  have hdyn : ∀ bs : BundleCollection,
      lookup_dynamic bs cache st key args = Cow.borrowed s := fun bs =>
    lookup_dynamic_t1 bs cache st key args (Cow.borrowed s)
      (by simp [tier_dynamic, h])
  exact ⟨hstat bundles, hdyn bundles, fun other =>
    ⟨(hstat other).trans (hstat bundles).symm,
     (hdyn other).trans (hdyn bundles).symm⟩⟩

theorem static_hit_short_circuits_witness :
    lookup_static no_bundles demo_cache fr_state "salut" = Cow.borrowed "Salut" ∧
    lookup_dynamic no_bundles demo_cache fr_state "salut" [("name", "Alice")] =
      Cow.borrowed "Salut" := by
  have h := static_hit_short_circuits no_bundles demo_cache fr_state "salut"
    [("name", "Alice")] "Salut" rfl
  exact ⟨h.1, h.2.1⟩

/-- C2: if Tier 1 for the current locale yields no value (no cache entry, or a
`Dynamic` entry whose bundle is absent or yields no value), the current key
differs from the fallback key, and the fallback entry for the message key is
`Static s`, then `lookup_static` returns `s`. -/
theorem fallback_static_hit (bundles : BundleCollection) (cache : CacheStore)
    (st : LocaleState) (key s : String)
    (h1 : cache st.key key = none ∨
      (cache st.key key = some CacheEntry.Dynamic ∧
        (bundles st.key = none ∨
          ∃ b, bundles st.key = some b ∧ lookup_in_bundle b key = none)))
    (h2 : ¬ st.key = FALLBACK_LANG_KEY)
    (h3 : cache FALLBACK_LANG_KEY key = some (CacheEntry.Static s)) :
    lookup_static bundles cache st key = Cow.borrowed s := by
  have t1 : tier_static bundles cache st.key key = none := by
    rcases h1 with h | ⟨hd, hb⟩
    · simp [tier_static, h]
    · rcases hb with hb | ⟨b, hb, hl⟩
      · simp [tier_static, hd, hb]
      · simp [tier_static, hd, hb, hl]
  exact lookup_static_t2 bundles cache st key (Cow.borrowed s) t1 h2
    (by simp [tier_static, h3])

theorem fallback_static_hit_witness :
    lookup_static no_bundles demo_cache fr_state "greeting" =
      Cow.borrowed "Hello" :=
  fallback_static_hit no_bundles demo_cache fr_state "greeting" "Hello"
    (Or.inl rfl) (by decide) rfl

/-- C3: if the cache yields `none` for the message key under both the current
locale key and the fallback locale key, `lookup_static` echoes the key. -/
theorem total_miss_echoes_key (bundles : BundleCollection) (cache : CacheStore)
    (st : LocaleState) (key : String)
    (h1 : cache st.key key = none)
    (h2 : cache FALLBACK_LANG_KEY key = none) :
    lookup_static bundles cache st key = Cow.borrowed key :=
  lookup_static_echo bundles cache st key (by simp [tier_static, h1])
    (Or.inr (by simp [tier_static, h2]))

theorem total_miss_echoes_key_witness :
    lookup_static no_bundles demo_cache fr_state "farewell" =
      Cow.borrowed "farewell" :=
  total_miss_echoes_key no_bundles demo_cache fr_state "farewell" rfl rfl

/-- C4: `lookup_static` and `lookup_dynamic` are total and surface no error:
on every input the returned string is the Tier-1 value, or (after a complete
Tier-1 miss) the Tier-2 value, or — when every tier misses (Tier 2 being
skipped when the current key is the fallback) — the key itself. -/
theorem resolver_never_fails (bundles : BundleCollection) (cache : CacheStore)
    (st : LocaleState) (key : String) (args : FluentArgs) :
    ((∃ v, tier_static bundles cache st.key key = some v ∧
        lookup_static bundles cache st key = v) ∨
     (tier_static bundles cache st.key key = none ∧
       ¬ st.key = FALLBACK_LANG_KEY ∧
       ∃ v, tier_static bundles cache FALLBACK_LANG_KEY key = some v ∧
         lookup_static bundles cache st key = v) ∨
     (tier_static bundles cache st.key key = none ∧
       (st.key = FALLBACK_LANG_KEY ∨
         tier_static bundles cache FALLBACK_LANG_KEY key = none) ∧
       lookup_static bundles cache st key = Cow.borrowed key)) ∧
    ((∃ v, tier_dynamic bundles cache st.key key args = some v ∧
        lookup_dynamic bundles cache st key args = v) ∨
     (tier_dynamic bundles cache st.key key args = none ∧
       ¬ st.key = FALLBACK_LANG_KEY ∧
       ∃ v, tier_dynamic bundles cache FALLBACK_LANG_KEY key args = some v ∧
         lookup_dynamic bundles cache st key args = v) ∨
     (tier_dynamic bundles cache st.key key args = none ∧
       (st.key = FALLBACK_LANG_KEY ∨
         tier_dynamic bundles cache FALLBACK_LANG_KEY key args = none) ∧
       lookup_dynamic bundles cache st key args = Cow.borrowed key)) :=
  ⟨lookup_static_split bundles cache st key,
   lookup_dynamic_split bundles cache st key args⟩

/-- C5 (counterexample to the claim as stated): an internal formatting error
(the pattern needs the variable `name`, the arguments do not supply it) does
not manifest as `None` at the engine boundary: the error is captured in the
error list, yet `format_in_bundle` still returns `some` of the rendered
fallback text, which `lookup_dynamic` duly returns to the caller. -/
theorem formatting_error_not_none :
    (demo_bundle.format_pattern "welcome-pattern" (some [])).2 =
      ["Unknown variable: name"] ∧
    format_in_bundle demo_bundle "welcome" [] =
      some (Cow.owned "Welcome, name!") ∧
    lookup_dynamic demo_bundles demo_cache en_state "welcome" [] =
      Cow.owned "Welcome, name!" :=
  ⟨rfl, rfl, rfl⟩

/-- C5 (amended): the engine boundary never propagates a fault — both
`lookup_in_bundle` and `format_in_bundle` yield `none` exactly when the
message key is not found or the message has no value pattern, and whenever a
value pattern exists they return `some` of the rendered string even if the
engine recorded internal formatting errors (the local error list is
discarded). -/
theorem engine_boundary_contract (b : FluentBundle) (key : String)
    (args : FluentArgs) :
    (lookup_in_bundle b key = none ↔
      b.get_message key = none ∨
        ∃ m, b.get_message key = some m ∧ m.value = none) ∧
    (format_in_bundle b key args = none ↔
      b.get_message key = none ∨
        ∃ m, b.get_message key = some m ∧ m.value = none) ∧
    (∀ m p, b.get_message key = some m → m.value = some p →
      lookup_in_bundle b key = some (b.format_pattern p none).1 ∧
      format_in_bundle b key args = some (b.format_pattern p (some args)).1) := by
  refine ⟨?_, ?_, ?_⟩
  · cases hm : b.get_message key with
    | none => simp [lookup_in_bundle, hm]
    | some m =>
      cases hv : m.value with
      | none => simp [lookup_in_bundle, hm, hv]
      | some p => simp [lookup_in_bundle, hm, hv]
  · cases hm : b.get_message key with
    | none => simp [format_in_bundle, hm]
    | some m =>
      cases hv : m.value with
      | none => simp [format_in_bundle, hm, hv]
      | some p => simp [format_in_bundle, hm, hv]
  · intro m p hm hp
    constructor
    · simp [lookup_in_bundle, hm, hp]
    · simp [format_in_bundle, hm, hp]

theorem engine_boundary_contract_witness :
    lookup_in_bundle demo_bundle "welcome" =
      some (demo_bundle.format_pattern "welcome-pattern" none).1 ∧
    format_in_bundle demo_bundle "welcome" [("name", "Alice")] =
      some (demo_bundle.format_pattern "welcome-pattern"
        (some [("name", "Alice")])).1 :=
  (engine_boundary_contract demo_bundle "welcome" [("name", "Alice")]).2.2
    demo_message "welcome-pattern" rfl rfl

/-- C6: when the current locale key equals the fixed fallback key, Tier 2 is
never separately evaluated: the instrumented resolvers record exactly one
`get_entry` query — against the current key — and compute the same value as
the plain resolvers. -/
theorem no_duplicate_fallback_pass (bundles : BundleCollection)
    (cache : CacheStore) (st : LocaleState) (key : String) (args : FluentArgs)
    (h : st.key = FALLBACK_LANG_KEY) :
    (lookup_static_traced bundles cache st key).2 = [(st.key, key)] ∧
    (lookup_dynamic_traced bundles cache st key args).2 = [(st.key, key)] ∧
    (lookup_static_traced bundles cache st key).1 =
      lookup_static bundles cache st key ∧
    (lookup_dynamic_traced bundles cache st key args).1 =
      lookup_dynamic bundles cache st key args :=
  ⟨lookup_static_traced_snd_fallback bundles cache st key h,
   lookup_dynamic_traced_snd_fallback bundles cache st key args h,
   lookup_static_traced_fst bundles cache st key,
   lookup_dynamic_traced_fst bundles cache st key args⟩

theorem no_duplicate_fallback_pass_witness :
    (lookup_static_traced demo_bundles demo_cache en_state "greeting").2 =
      [("en-US", "greeting")] ∧
    (lookup_dynamic_traced demo_bundles demo_cache en_state "greeting" []).2 =
      [("en-US", "greeting")] := by
  have h := no_duplicate_fallback_pass demo_bundles demo_cache en_state
    "greeting" [] rfl
  exact ⟨h.1, h.2.1⟩

/-- C7: switching the locale from a tag that parses always succeeds, replaces
the whole snapshot in one step, and every subsequent `get_lang` / resolve
call observes the new locale; a tag that fails to parse reports `ParseError`
and leaves the previously active state completely untouched. -/
theorem set_locale_atomic (parse : String → Option LanguageIdentifier)
    (tag : String) (g : LocaleState) :
    (∀ id, parse tag = some id →
      set_lang_from_str parse tag g = (set_lang id g, none) ∧
      get_lang (set_lang_from_str parse tag g).1 =
        { id := id, key := id.to_string } ∧
      (∀ bundles cache key,
        lookup_static bundles cache
            (get_lang (set_lang_from_str parse tag g).1) key =
          lookup_static bundles cache { id := id, key := id.to_string } key)) ∧
    (parse tag = none →
      set_lang_from_str parse tag g = (g, some ParseError.parseError)) := by
  constructor
  · intro id hid
    have hs : set_lang_from_str parse tag g = (set_lang id g, none) := by
      simp [set_lang_from_str, hid]
    refine ⟨hs, ?_, ?_⟩
    · rw [hs]; rfl
    · intro bundles cache key
      rw [hs]
      rfl
  · intro hnone
    simp [set_lang_from_str, hnone]

theorem set_locale_atomic_witness :
    set_lang_from_str demo_parse "fr-FR" initial_locale_state =
      (fr_state, none) ∧
    set_lang_from_str demo_parse "xx!!" initial_locale_state =
      (initial_locale_state, some ParseError.parseError) := by
  have hok := (set_locale_atomic demo_parse "fr-FR" initial_locale_state).1
    { canonical := "fr-FR" } rfl
  have hbad := (set_locale_atomic demo_parse "xx!!" initial_locale_state).2 rfl
  exact ⟨hok.1, hbad⟩

/-- C8: whenever a `Static` entry answers — at Tier 1 or Tier 2 — and whenever
every tier misses (key echo), the result is the `borrowed` variant of `Cow`;
an `owned` result can only originate from a bundle formatting call on a
`Dynamic` entry. -/
theorem borrowed_unless_dynamic (bundles : BundleCollection)
    (cache : CacheStore) (st : LocaleState) (key : String) (args : FluentArgs) :
    (∀ s, cache st.key key = some (CacheEntry.Static s) →
      lookup_static bundles cache st key = Cow.borrowed s ∧
      lookup_dynamic bundles cache st key args = Cow.borrowed s) ∧
    (∀ s, tier_static bundles cache st.key key = none →
      cache FALLBACK_LANG_KEY key = some (CacheEntry.Static s) →
      lookup_static bundles cache st key = Cow.borrowed s) ∧
    (∀ s, tier_dynamic bundles cache st.key key args = none →
      cache FALLBACK_LANG_KEY key = some (CacheEntry.Static s) →
      lookup_dynamic bundles cache st key args = Cow.borrowed s) ∧
    (tier_static bundles cache st.key key = none →
      (st.key = FALLBACK_LANG_KEY ∨
        tier_static bundles cache FALLBACK_LANG_KEY key = none) →
      lookup_static bundles cache st key = Cow.borrowed key) ∧
    (tier_dynamic bundles cache st.key key args = none →
      (st.key = FALLBACK_LANG_KEY ∨
        tier_dynamic bundles cache FALLBACK_LANG_KEY key args = none) →
      lookup_dynamic bundles cache st key args = Cow.borrowed key) ∧
    ((lookup_static bundles cache st key).isOwned = true →
      ∃ lang b, (lang = st.key ∨ lang = FALLBACK_LANG_KEY) ∧
        cache lang key = some CacheEntry.Dynamic ∧ bundles lang = some b ∧
        lookup_in_bundle b key = some (lookup_static bundles cache st key)) ∧
    ((lookup_dynamic bundles cache st key args).isOwned = true →
      ∃ lang b, (lang = st.key ∨ lang = FALLBACK_LANG_KEY) ∧
        cache lang key = some CacheEntry.Dynamic ∧ bundles lang = some b ∧
        format_in_bundle b key args =
          some (lookup_dynamic bundles cache st key args)) := by
  refine ⟨?_, ?_, ?_, ?_, ?_, ?_, ?_⟩
  · intro s h
    exact ⟨lookup_static_t1 bundles cache st key (Cow.borrowed s)
        (by simp [tier_static, h]),
      lookup_dynamic_t1 bundles cache st key args (Cow.borrowed s)
        (by simp [tier_dynamic, h])⟩
  · intro s t1 h3
    have hf : ¬ st.key = FALLBACK_LANG_KEY := by
      intro heq
      rw [heq] at t1
      simp [tier_static, h3] at t1
    exact lookup_static_t2 bundles cache st key (Cow.borrowed s) t1 hf
      (by simp [tier_static, h3])
  · intro s t1 h3
    have hf : ¬ st.key = FALLBACK_LANG_KEY := by
      intro heq
      rw [heq] at t1
      simp [tier_dynamic, h3] at t1
    exact lookup_dynamic_t2 bundles cache st key args (Cow.borrowed s) t1 hf
      (by simp [tier_dynamic, h3])
  · intro t1 h2
    exact lookup_static_echo bundles cache st key t1 h2
  · intro t1 h2
    exact lookup_dynamic_echo bundles cache st key args t1 h2
  · intro ho
    rcases lookup_static_split bundles cache st key with
      ⟨v, hv, he⟩ | ⟨_, _, v, hv, he⟩ | ⟨_, _, he⟩
    · rw [he] at ho
      obtain ⟨hc, b, hb, hl⟩ :=
        tier_static_owned bundles cache st.key key v hv ho
      exact ⟨st.key, b, Or.inl rfl, hc, hb, by rw [he]; exact hl⟩
    · rw [he] at ho
      obtain ⟨hc, b, hb, hl⟩ :=
        tier_static_owned bundles cache FALLBACK_LANG_KEY key v hv ho
      exact ⟨FALLBACK_LANG_KEY, b, Or.inr rfl, hc, hb, by rw [he]; exact hl⟩
    · rw [he] at ho
      exact absurd ho (by simp [Cow.isOwned])
  · intro ho
    rcases lookup_dynamic_split bundles cache st key args with
      ⟨v, hv, he⟩ | ⟨_, _, v, hv, he⟩ | ⟨_, _, he⟩
    · rw [he] at ho
      obtain ⟨hc, b, hb, hl⟩ :=
        tier_dynamic_owned bundles cache st.key key args v hv ho
      exact ⟨st.key, b, Or.inl rfl, hc, hb, by rw [he]; exact hl⟩
    · rw [he] at ho
      obtain ⟨hc, b, hb, hl⟩ :=
        tier_dynamic_owned bundles cache FALLBACK_LANG_KEY key args v hv ho
      exact ⟨FALLBACK_LANG_KEY, b, Or.inr rfl, hc, hb, by rw [he]; exact hl⟩
    · rw [he] at ho
      exact absurd ho (by simp [Cow.isOwned])

theorem borrowed_unless_dynamic_witness :
    ∃ lang b, (lang = en_state.key ∨ lang = FALLBACK_LANG_KEY) ∧
      demo_cache lang "welcome" = some CacheEntry.Dynamic ∧
      demo_bundles lang = some b ∧
      format_in_bundle b "welcome" [("name", "Alice")] =
        some (lookup_dynamic demo_bundles demo_cache en_state "welcome"
          [("name", "Alice")]) :=
  (borrowed_unless_dynamic demo_bundles demo_cache en_state "welcome"
    [("name", "Alice")]).2.2.2.2.2.2 rfl

/-- C9: the two entry points run the identical three-tier policy — both are
the same generic resolver, instantiated with `lookup_in_bundle` respectively
`format_in_bundle args` as the engine call on a `Dynamic` hit — and for every
input whose resolution is not decided by a `Dynamic` entry (every engine
consultation yields no value), `lookup_dynamic` agrees with `lookup_static`
for every argument map. -/
theorem identical_three_tier_policy (bundles : BundleCollection)
    (cache : CacheStore) (st : LocaleState) (key : String) (args : FluentArgs) :
    lookup_static bundles cache st key =
      lookup_generic (fun b k => lookup_in_bundle b k) bundles cache st key ∧
    lookup_dynamic bundles cache st key args =
      lookup_generic (fun b k => format_in_bundle b k args) bundles cache st key ∧
    ((∀ lang b, (lang = st.key ∨ lang = FALLBACK_LANG_KEY) →
        cache lang key = some CacheEntry.Dynamic → bundles lang = some b →
        lookup_in_bundle b key = none ∧ format_in_bundle b key args = none) →
      lookup_dynamic bundles cache st key args =
        lookup_static bundles cache st key) := by
  refine ⟨rfl, rfl, ?_⟩
  intro h
  have e1 := tier_agree bundles cache st.key key args
    (fun b hc hb => h st.key b (Or.inl rfl) hc hb)
  have e2 := tier_agree bundles cache FALLBACK_LANG_KEY key args
    (fun b hc hb => h FALLBACK_LANG_KEY b (Or.inr rfl) hc hb)
  unfold lookup_dynamic lookup_static
  rw [e1, e2]

theorem identical_three_tier_policy_witness :
    lookup_dynamic no_bundles empty_cache fr_state "any-key" [("name", "Bo")] =
      lookup_static no_bundles empty_cache fr_state "any-key" :=
  (identical_three_tier_policy no_bundles empty_cache fr_state "any-key"
    [("name", "Bo")]).2.2 (fun _ _ _ hc _ => nomatch hc)

/-- C10: before any locale switch the active snapshot is `en-US`, which is
exactly the fixed fallback key, so `get_lang` reports `en-US` and every
resolve call performs a single-tier lookup — exactly one cache query, against
the current key. -/
theorem initial_locale_is_fallback (bundles : BundleCollection)
    (cache : CacheStore) (key : String) (args : FluentArgs) :
    initial_locale_state.key = FALLBACK_LANG_KEY ∧
    (get_lang initial_locale_state).key = "en-US" ∧
    (lookup_static_traced bundles cache initial_locale_state key).2 =
      [(FALLBACK_LANG_KEY, key)] ∧
    (lookup_dynamic_traced bundles cache initial_locale_state key args).2 =
      [(FALLBACK_LANG_KEY, key)] :=
  ⟨rfl, rfl,
   lookup_static_traced_snd_fallback bundles cache initial_locale_state key rfl,
   lookup_dynamic_traced_snd_fallback bundles cache initial_locale_state key
     args rfl⟩
